import Mathlib

/-!
Shallow embedding of `src/interpreter/env_native.rs` from the parity-wasm
interpreter: the native-function composition layer (`NativeModuleInstance`)
that merges a registry of host ("native") functions into the index space of a
wrapped module instance.

Modelling conventions:
* `u32` function indices are modelled as `Nat`.  All arithmetic performed by
  the source on them (`NATIVE_INDEX_FUNC_MIN + index`, `index -
  NATIVE_INDEX_FUNC_MIN` under the guard `index >= NATIVE_INDEX_FUNC_MIN`)
  is value-preserving for registries of any realistic size, so no wrap-around
  is modelled.
* The wrapped module (a `ModuleInstanceInterface` trait object in the source)
  is modelled as a record of pure functions returning `Except Error _`,
  matching the trait's signatures; its behaviour is opaque to this layer.
* The user-function executor holds mutable state behind a lock in the source;
  it is modelled by explicit state passing: `execute` maps a state, a name and
  a caller context to a new state and a result.  An operation that leaves the
  state unchanged did not invoke the executor.
* The `unreachable!` branch of `function_type` is modelled with the `PanicOr`
  wrapper: `PanicOr.panics msg` is a process abort, `PanicOr.ok r` a normal
  return of `r`.
* `HashMap<String, u32>` is modelled as an association list with
  replace-on-insert semantics (`hashmapInsert` / `hashmapGet`), matching
  `HashMap`'s `FromIterator` behaviour where later duplicate keys overwrite
  earlier ones.
-/

/-- Value types of the wasm `elements` crate (`ValueType`). -/
inductive ValueType
  | I32
  | I64
  | F32
  | F64
deriving DecidableEq

/-- Function type of the wasm `elements` crate: parameter list and optional
return type (the `form` byte is a constant and elided). -/
structure FunctionType where
  params : List ValueType
  return_type : Option ValueType
deriving DecidableEq

/-- `FunctionType::new(params, return_type)`. -/
def FunctionType.new (params : List ValueType) (return_type : Option ValueType) : FunctionType :=
  { params := params, return_type := return_type }

/-- Runtime values (`interpreter::value::RuntimeValue`); floats are carried
as bit patterns since this layer never inspects values. -/
inductive RuntimeValue
  | I32 (v : Int)
  | I64 (v : Int)
  | F32Bits (v : Nat)
  | F64Bits (v : Nat)
deriving DecidableEq

/-- Interpreter errors (`interpreter::Error`): the `Native` variant is the
one this layer produces; every other variant is opaque to it and collapsed
into `Other`. -/
inductive Error
  | Native (msg : String)
  | Other (msg : String)
deriving DecidableEq

/-- Item index (`interpreter::module::ItemIndex`). -/
inductive ItemIndex
  | IndexSpace (i : Nat)
  | Internal (i : Nat)
  | External (i : Nat)
deriving DecidableEq

/-- Export reference of the wasm `elements` crate (`Internal`). -/
inductive Internal
  | Function (i : Nat)
  | Table (i : Nat)
  | Memory (i : Nat)
  | Global (i : Nat)
deriving DecidableEq

/-- Variable type (`interpreter::variable::VariableType`); opaque to this
layer, carried as the underlying value type. -/
structure VariableType where
  value_type : ValueType
deriving DecidableEq

/-- Required type of an export entry (`interpreter::module::ExportEntryType`). -/
inductive ExportEntryType
  | Any
  | Global (t : VariableType)
  | Function (t : FunctionType)
deriving DecidableEq

/-- Table instance handle; opaque to this layer, carried as an identifier. -/
structure TableInstance where
  id : Nat
deriving DecidableEq

/-- Memory instance handle; opaque to this layer, carried as an identifier. -/
structure MemoryInstance where
  id : Nat
deriving DecidableEq

/-- Global-variable instance handle; opaque to this layer. -/
structure VariableInstance where
  id : Nat
deriving DecidableEq

/-- Execution parameters (`interpreter::module::ExecutionParams`); opaque to
this layer, carried as the argument values. -/
structure ExecutionParams where
  args : List RuntimeValue
deriving DecidableEq

/-- Caller context (`interpreter::module::CallerContext`): the caller's frame
state, opaque to this layer, which only relays it. -/
structure CallerContext where
  value_stack : List RuntimeValue
deriving DecidableEq

/-- Externals map (`HashMap<String, Arc<ModuleInstanceInterface>>`); opaque to
this layer, which only forwards it, carried as a name-to-instance-id list. -/
abbrev Externals := List (String × Nat)

/-- The wrapped module, a `ModuleInstanceInterface` trait object, modelled as
a record of its operations with the trait's signatures. -/
structure ModuleInstanceInterface where
  instantiate : Bool → Option Externals → Except Error Unit
  execute_index : Nat → ExecutionParams → Except Error (Option RuntimeValue)
  execute_export : String → ExecutionParams → Except Error (Option RuntimeValue)
  export_entry : String → Option Externals → ExportEntryType → Except Error Internal
  function_type : ItemIndex → Option Externals → Except Error FunctionType
  table : ItemIndex → Except Error TableInstance
  memory : ItemIndex → Except Error MemoryInstance
  global : ItemIndex → Option VariableType → Except Error VariableInstance
  call_function : CallerContext → ItemIndex → Option FunctionType → Except Error (Option RuntimeValue)
  call_function_indirect : CallerContext → ItemIndex → Nat → Nat → Except Error (Option RuntimeValue)
  call_internal_function : CallerContext → Nat → Option FunctionType → Except Error (Option RuntimeValue)

/-- Min index of native function (`NATIVE_INDEX_FUNC_MIN`). -/
def NATIVE_INDEX_FUNC_MIN : Nat := 10001

/-- User function descriptor (`UserFunctionDescriptor`): `Static` holds
references to static storage, `Heap` owned data; both carry a name and a
parameter list. -/
inductive UserFunctionDescriptor
  | Static (name : String) (params : List ValueType)
  | Heap (name : String) (params : List ValueType)
deriving DecidableEq

/-- User function (`UserFunction`): descriptor plus optional result type. -/
structure UserFunction where
  desc : UserFunctionDescriptor
  result : Option ValueType
deriving DecidableEq

/-- `UserFunction::statik`. -/
def UserFunction.statik (name : String) (params : List ValueType) (result : Option ValueType) : UserFunction :=
  { desc := UserFunctionDescriptor.Static name params, result := result }

/-- `UserFunction::heap`. -/
def UserFunction.heap (name : String) (params : List ValueType) (result : Option ValueType) : UserFunction :=
  { desc := UserFunctionDescriptor.Heap name params, result := result }

/-- `UserFunction::name`. -/
def UserFunction.name (f : UserFunction) : String :=
  match f.desc with
  | UserFunctionDescriptor.Static name _ => name
  | UserFunctionDescriptor.Heap name _ => name

/-- `UserFunction::params`. -/
def UserFunction.params (f : UserFunction) : List ValueType :=
  match f.desc with
  | UserFunctionDescriptor.Static _ params => params
  | UserFunctionDescriptor.Heap _ params => params

/-- The user-function executor (`UserFunctionExecutor` trait): mutable state
of type `σ`, threaded explicitly; `execute` is invoked with the function's
registered name and the caller context. -/
structure UserFunctionExecutor (σ : Type) where
  execute : σ → String → CallerContext → σ × Except Error (Option RuntimeValue)

/-- Set of user-defined functions (`UserFunctions`): descriptor list plus the
executor. -/
structure UserFunctions (σ : Type) where
  functions : List UserFunction
  executor : UserFunctionExecutor σ

/-- `HashMap::insert` modelled on an association list: replaces the entry for
the key if present, otherwise adds one. -/
def hashmapInsert (m : List (String × Nat)) (k : String) (v : Nat) : List (String × Nat) :=
  match m with
  | [] => [(k, v)]
  | (k0, v0) :: rest =>
    if k0 = k then (k, v) :: rest else (k0, v0) :: hashmapInsert rest k v

/-- `HashMap::get` modelled on an association list. -/
def hashmapGet (m : List (String × Nat)) (k : String) : Option Nat :=
  match m with
  | [] => none
  | (k0, v0) :: rest => if k0 = k then some v0 else hashmapGet rest k

/-- Fold of `HashMap::collect` over the enumerated descriptor list, inserting
`(f.name(), i)` for each descriptor in order; `i` is the running position. -/
def collectByNameAux (m : List (String × Nat)) (i : Nat) : List UserFunction → List (String × Nat)
  | [] => m
  | f :: rest => collectByNameAux (hashmapInsert m f.name i) (i + 1) rest

/-- `functions.iter().enumerate().map(|(i, f)| (f.name().to_owned(), i)).collect()`. -/
def collectByName (fns : List UserFunction) : List (String × Nat) :=
  collectByNameAux [] 0 fns

/-- Native module instance (`NativeModuleInstance`): wrapped module, executor
(state type `σ`), by-name index and the user-function list. -/
structure NativeModuleInstance (σ : Type) where
  env : ModuleInstanceInterface
  executor : UserFunctionExecutor σ
  by_name : List (String × Nat)
  functions : List UserFunction

/-- The record built by `NativeModuleInstance::new`. -/
def NativeModuleInstance.build (σ : Type) (env : ModuleInstanceInterface) (functions : UserFunctions σ) : NativeModuleInstance σ :=
  { env := env
    executor := functions.executor
    by_name := collectByName functions.functions
    functions := functions.functions }

/-- `NativeModuleInstance::new`: always succeeds, deriving the by-name map
from the descriptor list. -/
def NativeModuleInstance.new (σ : Type) (env : ModuleInstanceInterface) (functions : UserFunctions σ) : Except Error (NativeModuleInstance σ) :=
  Except.ok (NativeModuleInstance.build σ env functions)

/-- Outcome of an operation whose source may abort the process: `panics msg`
models a `panic` / `unreachable` abort, `ok r` a normal return of `r`. -/
inductive PanicOr (α : Type)
  | panics (msg : String)
  | ok (v : α)
deriving DecidableEq

/-- `NativeModuleInstance::instantiate`: forwarded to the wrapped module. -/
def NativeModuleInstance.instantiate {σ : Type} (self : NativeModuleInstance σ) (is_user_module : Bool) (externals : Option Externals) : Except Error Unit :=
  self.env.instantiate is_user_module externals

/-- `NativeModuleInstance::execute_index`: forwarded to the wrapped module. -/
def NativeModuleInstance.execute_index {σ : Type} (self : NativeModuleInstance σ) (index : Nat) (params : ExecutionParams) : Except Error (Option RuntimeValue) :=
  self.env.execute_index index params

/-- `NativeModuleInstance::execute_export`: forwarded to the wrapped module. -/
def NativeModuleInstance.execute_export {σ : Type} (self : NativeModuleInstance σ) (name : String) (params : ExecutionParams) : Except Error (Option RuntimeValue) :=
  self.env.execute_export name params

/-- `NativeModuleInstance::export_entry`: a by-name registry hit returns the
native function reference `NATIVE_INDEX_FUNC_MIN + index`; a miss forwards to
the wrapped module. -/
def NativeModuleInstance.export_entry {σ : Type} (self : NativeModuleInstance σ) (name : String) (externals : Option Externals) (required_type : ExportEntryType) : Except Error Internal :=
  match hashmapGet self.by_name name with
  | some index => Except.ok (Internal.Function (NATIVE_INDEX_FUNC_MIN + index))
  | none => self.env.export_entry name externals required_type

/-- `NativeModuleInstance::function_type`: an externally-indexed function
aborts (`unreachable!`); an index below the threshold forwards to the wrapped
module; otherwise the registry is consulted at `index - NATIVE_INDEX_FUNC_MIN`,
failing with the missing-native-function error when out of range. -/
def NativeModuleInstance.function_type {σ : Type} (self : NativeModuleInstance σ) (function_index : ItemIndex) (externals : Option Externals) : PanicOr (Except Error FunctionType) :=
  match function_index with
  | ItemIndex.External _ =>
    PanicOr.panics "trying to call function, exported by native env module"
  | ItemIndex.IndexSpace index | ItemIndex.Internal index =>
    PanicOr.ok
      (if index < NATIVE_INDEX_FUNC_MIN then
        self.env.function_type function_index externals
      else
        match self.functions.get? (index - NATIVE_INDEX_FUNC_MIN) with
        | none => Except.error (Error.Native ("missing native env function with index " ++ toString index))
        | some f => Except.ok (FunctionType.new f.params f.result))

/-- `NativeModuleInstance::table`: forwarded to the wrapped module. -/
def NativeModuleInstance.table {σ : Type} (self : NativeModuleInstance σ) (index : ItemIndex) : Except Error TableInstance :=
  self.env.table index

/-- `NativeModuleInstance::memory`: forwarded to the wrapped module. -/
def NativeModuleInstance.memory {σ : Type} (self : NativeModuleInstance σ) (index : ItemIndex) : Except Error MemoryInstance :=
  self.env.memory index

/-- `NativeModuleInstance::global`: forwarded to the wrapped module. -/
def NativeModuleInstance.global {σ : Type} (self : NativeModuleInstance σ) (index : ItemIndex) (variable_type : Option VariableType) : Except Error VariableInstance :=
  self.env.global index variable_type

/-- `NativeModuleInstance::call_function`: forwarded to the wrapped module. -/
def NativeModuleInstance.call_function {σ : Type} (self : NativeModuleInstance σ) (outer : CallerContext) (index : ItemIndex) (function_type : Option FunctionType) : Except Error (Option RuntimeValue) :=
  self.env.call_function outer index function_type

/-- `NativeModuleInstance::call_function_indirect`: forwarded to the wrapped
module. -/
def NativeModuleInstance.call_function_indirect {σ : Type} (self : NativeModuleInstance σ) (outer : CallerContext) (table_index : ItemIndex) (type_index : Nat) (func_index : Nat) : Except Error (Option RuntimeValue) :=
  self.env.call_function_indirect outer table_index type_index func_index

/-- `NativeModuleInstance::call_internal_function`: an index below the
threshold forwards to the wrapped module (executor state `s` untouched);
otherwise the registry is consulted at `index - NATIVE_INDEX_FUNC_MIN`,
failing when out of range, else invoking the executor with the descriptor's
name and the caller context.  The expected function type is accepted but not
checked (source comment: TODO check type). -/
def NativeModuleInstance.call_internal_function {σ : Type} (self : NativeModuleInstance σ) (s : σ) (outer : CallerContext) (index : Nat) (function_type : Option FunctionType) : σ × Except Error (Option RuntimeValue) :=
  if index < NATIVE_INDEX_FUNC_MIN then
    (s, self.env.call_internal_function outer index function_type)
  else
    match self.functions.get? (index - NATIVE_INDEX_FUNC_MIN) with
    | none => (s, Except.error (Error.Native ("trying to call native function with index " ++ toString index)))
    | some f => self.executor.execute s f.name outer

/-- `env_native_module`: wrapper around `NativeModuleInstance::new`. -/
def env_native_module (σ : Type) (env : ModuleInstanceInterface) (user_functions : UserFunctions σ) : Except Error (NativeModuleInstance σ) :=
  NativeModuleInstance.new σ env user_functions

/-! ### Lemmas about the by-name map -/

/-- Lookup after a replace-on-insert: the inserted key maps to the new value,
every other key is unaffected. -/
theorem hashmapGet_insert (m : List (String × Nat)) (k : String) (v : Nat) (k1 : String) :
    hashmapGet (hashmapInsert m k v) k1 = if k = k1 then some v else hashmapGet m k1 := by
  induction m with
  | nil => simp [hashmapInsert, hashmapGet]
  | cons p rest ih =>
    obtain ⟨k0, v0⟩ := p
    by_cases h0 : k0 = k
    · subst h0
      by_cases h1 : k0 = k1 <;> simp [hashmapInsert, hashmapGet, h1]
    · by_cases h1 : k0 = k1
      · subst h1
        have : ¬ k = k0 := fun h => h0 h.symm
        simp [hashmapInsert, hashmapGet, h0, this]
      · simp [hashmapInsert, hashmapGet, h0, h1, ih]

/-- Position of the last descriptor with a given name, offset by `i`. -/
def lastIdxFrom (i : Nat) (n : String) : List UserFunction → Option Nat
  | [] => none
  | f :: rest =>
    match lastIdxFrom (i + 1) n rest with
    | some j => some j
    | none => if f.name = n then some i else none

/-- The collect fold maps a name to the position of its last descriptor,
falling back to the initial map. -/
theorem hashmapGet_collectByNameAux (fns : List UserFunction) :
    ∀ (m : List (String × Nat)) (i : Nat) (n : String),
      hashmapGet (collectByNameAux m i fns) n =
        match lastIdxFrom i n fns with
        | some j => some j
        | none => hashmapGet m n := by
  induction fns with
  | nil => intro m i n; rfl
  | cons f rest ih =>
    intro m i n
    simp only [collectByNameAux, lastIdxFrom]
    rw [ih]
    cases h : lastIdxFrom (i + 1) n rest with
    | some j => simp
    | none =>
      simp only
      rw [hashmapGet_insert]
      by_cases hn : f.name = n <;> simp [hn]

/-- A name held by no descriptor has no last position. -/
theorem lastIdxFrom_eq_none (fns : List UserFunction) :
    ∀ (i : Nat) (n : String), (∀ k g, fns.get? k = some g → g.name ≠ n) →
      lastIdxFrom i n fns = none := by
  induction fns with
  | nil => intro i n _; rfl
  | cons f rest ih =>
    intro i n h
    have h0 : f.name ≠ n := h 0 f rfl
    have hr : lastIdxFrom (i + 1) n rest = none :=
      ih (i + 1) n (fun k g hg => h (k + 1) g hg)
    simp [lastIdxFrom, hr, h0]

/-- A descriptor at position `j` whose name has no later occurrence is the
last one with that name. -/
theorem lastIdxFrom_of_last (fns : List UserFunction) :
    ∀ (i j : Nat) (fj : UserFunction) (n : String),
      fns.get? j = some fj → fj.name = n →
      (∀ k g, j < k → fns.get? k = some g → g.name ≠ n) →
      lastIdxFrom i n fns = some (i + j) := by
  induction fns with
  | nil => intro i j fj n hj _ _; simp at hj
  | cons f rest ih =>
    intro i j fj n hj hname hlast
    cases j with
    | zero =>
      have hf : f = fj := by simpa using hj
      subst hf
      have hnone : lastIdxFrom (i + 1) n rest = none := by
        apply lastIdxFrom_eq_none
        intro k g hg
        exact hlast (k + 1) g (Nat.succ_pos k) hg
      simp [lastIdxFrom, hnone, hname]
    | succ j0 =>
      have hj0 : rest.get? j0 = some fj := by simpa using hj
      have hlast0 : ∀ k g, j0 < k → rest.get? k = some g → g.name ≠ n := by
        intro k g hk hg
        exact hlast (k + 1) g (Nat.succ_lt_succ hk) hg
      have := ih (i + 1) j0 fj n hj0 hname hlast0
      simp only [lastIdxFrom, this]
      congr 1
      omega

/-- Lookup in the by-name map built by `new` finds the position of the last
descriptor carrying the name. -/
theorem hashmapGet_collectByName (fns : List UserFunction) (j : Nat) (fj : UserFunction) (n : String)
    (hj : fns.get? j = some fj) (hname : fj.name = n)
    (hlast : ∀ k g, j < k → fns.get? k = some g → g.name ≠ n) :
    hashmapGet (collectByName fns) n = some j := by
  unfold collectByName
  rw [hashmapGet_collectByNameAux, lastIdxFrom_of_last fns 0 j fj n hj hname hlast]
  simp

/-! ### Concrete fixtures used to instantiate the theorems below -/

/-- Concrete wrapped module with fully determined behaviour. -/
def testEnv : ModuleInstanceInterface :=
  { instantiate := fun _ _ => Except.ok ()
    execute_index := fun i _ => Except.ok (some (RuntimeValue.I32 (Int.ofNat i)))
    execute_export := fun _ _ => Except.ok none
    export_entry := fun _ _ _ => Except.error (Error.Other "unknown export")
    function_type := fun _ _ => Except.ok (FunctionType.new [ValueType.I64] none)
    table := fun _ => Except.ok { id := 1 }
    memory := fun _ => Except.ok { id := 2 }
    global := fun _ _ => Except.ok { id := 3 }
    call_function := fun _ _ _ => Except.ok none
    call_function_indirect := fun _ _ _ _ => Except.ok none
    call_internal_function := fun _ i _ => Except.ok (some (RuntimeValue.I32 (Int.ofNat i))) }

/-- The scenario descriptor: `add : (I32, I32) -> I32`. -/
def addDescriptor : UserFunction :=
  UserFunction.statik "add" [ValueType.I32, ValueType.I32] (some ValueType.I32)

/-- Concrete executor over a `Nat` call counter. -/
def testExecutor : UserFunctionExecutor Nat :=
  { execute := fun s name _ => (s + 1, Except.ok (some (RuntimeValue.I32 (Int.ofNat name.length)))) }

/-- The scenario registry `[add]` with the concrete executor. -/
def testUserFunctions : UserFunctions Nat :=
  { functions := [addDescriptor], executor := testExecutor }

/-- A concrete caller context. -/
def testCtx : CallerContext := { value_stack := [RuntimeValue.I32 5, RuntimeValue.I32 7] }

/-- First of two descriptors sharing the name `f`. -/
def dupFirst : UserFunction := UserFunction.statik "f" [ValueType.I32] none

/-- Second of two descriptors sharing the name `f`. -/
def dupSecond : UserFunction := UserFunction.heap "f" [ValueType.I64] (some ValueType.I64)

/-- Registry containing two descriptors with the same name. -/
def dupUserFunctions : UserFunctions Nat :=
  { functions := [dupFirst, dupSecond], executor := testExecutor }

/-! ### Claims -/

/-- Claim C1: for a registry holding name `n` at position `p` (with no later
descriptor of that name), `export_entry` returns the internal function
reference `NATIVE_INDEX_FUNC_MIN + p` (threshold 10001 plus position), and
`function_type` on that same index returns exactly the function type built
from that descriptor's parameter list and optional result. -/
theorem export_entry_function_type_agree (σ : Type) (env : ModuleInstanceInterface)
    (ufns : UserFunctions σ) (n : String) (p : Nat) (f : UserFunction)
    (externals : Option Externals) (required_type : ExportEntryType)
    (hp : ufns.functions.get? p = some f) (hn : f.name = n)
    (hlast : ∀ k g, p < k → ufns.functions.get? k = some g → g.name ≠ n) :
    (NativeModuleInstance.build σ env ufns).export_entry n externals required_type =
        Except.ok (Internal.Function (NATIVE_INDEX_FUNC_MIN + p)) ∧
      (NativeModuleInstance.build σ env ufns).function_type
          (ItemIndex.Internal (NATIVE_INDEX_FUNC_MIN + p)) externals =
        PanicOr.ok (Except.ok (FunctionType.new f.params f.result)) := by
  have hget : hashmapGet (collectByName ufns.functions) n = some p :=
    hashmapGet_collectByName ufns.functions p f n hp hn hlast
  constructor
  · simp [NativeModuleInstance.export_entry, NativeModuleInstance.build, hget]
  · have h1 : ¬ NATIVE_INDEX_FUNC_MIN + p < NATIVE_INDEX_FUNC_MIN := by omega
    have h2 : NATIVE_INDEX_FUNC_MIN + p - NATIVE_INDEX_FUNC_MIN = p := by omega
    have hp2 : ufns.functions[p]? = some f := by
      rw [← List.get?_eq_getElem?]
      exact hp
    simp [NativeModuleInstance.function_type, NativeModuleInstance.build, h1, h2, hp2]

/-- Witness for C1 on the scenario registry `[add]`. -/
theorem export_entry_function_type_agree_witness :
    (testUserFunctions.functions.get? 0 = some addDescriptor ∧ addDescriptor.name = "add" ∧
      (∀ k g, 0 < k → testUserFunctions.functions.get? k = some g → g.name ≠ "add")) ∧
    ((NativeModuleInstance.build Nat testEnv testUserFunctions).export_entry "add" none ExportEntryType.Any =
        Except.ok (Internal.Function (NATIVE_INDEX_FUNC_MIN + 0)) ∧
      (NativeModuleInstance.build Nat testEnv testUserFunctions).function_type
          (ItemIndex.Internal (NATIVE_INDEX_FUNC_MIN + 0)) none =
        PanicOr.ok (Except.ok (FunctionType.new addDescriptor.params addDescriptor.result))) := by
  have hlast : ∀ k g, 0 < k → testUserFunctions.functions.get? k = some g → g.name ≠ "add" := by
    intro k g hk hg
    match k, hk with
    | k + 1, _ => simp [testUserFunctions, addDescriptor] at hg
  exact ⟨⟨rfl, rfl, hlast⟩,
    export_entry_function_type_agree Nat testEnv testUserFunctions "add" 0 addDescriptor
      none ExportEntryType.Any rfl rfl hlast⟩

/-- Claim C2: for a native index within the registry range,
`call_internal_function` performs exactly one executor invocation, passing the
registered name of the descriptor at `index - NATIVE_INDEX_FUNC_MIN` and the
caller's context unchanged, and returns the executor's state and result
unchanged. -/
theorem call_internal_function_native_dispatch (σ : Type) (env : ModuleInstanceInterface)
    (ufns : UserFunctions σ) (s : σ) (outer : CallerContext) (index : Nat)
    (expected_type : Option FunctionType)
    (h1 : NATIVE_INDEX_FUNC_MIN ≤ index)
    (h2 : index < NATIVE_INDEX_FUNC_MIN + ufns.functions.length) :
    ∃ f, ufns.functions.get? (index - NATIVE_INDEX_FUNC_MIN) = some f ∧
      (NativeModuleInstance.build σ env ufns).call_internal_function s outer index expected_type =
        ufns.executor.execute s f.name outer := by
  cases hf : ufns.functions.get? (index - NATIVE_INDEX_FUNC_MIN) with
  | none =>
    have := List.get?_eq_none.mp hf
    omega
  | some f =>
    refine ⟨f, rfl, ?_⟩
    have hnl : ¬ index < NATIVE_INDEX_FUNC_MIN := by omega
    have hf2 : ufns.functions[index - NATIVE_INDEX_FUNC_MIN]? = some f := by
      rw [← List.get?_eq_getElem?]
      exact hf
    simp [NativeModuleInstance.call_internal_function, NativeModuleInstance.build, hnl, hf2]

/-- Witness for C2 at index 10001 of the scenario registry `[add]`. -/
theorem call_internal_function_native_dispatch_witness :
    (NATIVE_INDEX_FUNC_MIN ≤ 10001 ∧ 10001 < NATIVE_INDEX_FUNC_MIN + testUserFunctions.functions.length) ∧
    (∃ f, testUserFunctions.functions.get? (10001 - NATIVE_INDEX_FUNC_MIN) = some f ∧
      (NativeModuleInstance.build Nat testEnv testUserFunctions).call_internal_function 0 testCtx 10001 none =
        testUserFunctions.executor.execute 0 f.name testCtx) :=
  ⟨⟨by decide, by decide⟩,
    call_internal_function_native_dispatch Nat testEnv testUserFunctions 0 testCtx 10001 none
      (by decide) (by decide)⟩

/-- Claim C3: a native-range index with no backing descriptor makes
`function_type` (for internal and index-space indices alike) fail with the
native error naming the index, and `call_internal_function` fail with its
native error naming the index, returning the executor state untouched: the
executor is not invoked. -/
theorem native_index_out_of_range_errors (σ : Type) (env : ModuleInstanceInterface)
    (ufns : UserFunctions σ) (s : σ) (outer : CallerContext) (index : Nat)
    (externals : Option Externals) (expected_type : Option FunctionType)
    (h1 : NATIVE_INDEX_FUNC_MIN ≤ index)
    (h2 : ufns.functions.length ≤ index - NATIVE_INDEX_FUNC_MIN) :
    (NativeModuleInstance.build σ env ufns).function_type (ItemIndex.Internal index) externals =
        PanicOr.ok (Except.error (Error.Native ("missing native env function with index " ++ toString index))) ∧
      (NativeModuleInstance.build σ env ufns).function_type (ItemIndex.IndexSpace index) externals =
        PanicOr.ok (Except.error (Error.Native ("missing native env function with index " ++ toString index))) ∧
      (NativeModuleInstance.build σ env ufns).call_internal_function s outer index expected_type =
        (s, Except.error (Error.Native ("trying to call native function with index " ++ toString index))) := by
  have hf : ufns.functions.get? (index - NATIVE_INDEX_FUNC_MIN) = none := List.get?_eq_none.mpr h2
  have hf2 : ufns.functions[index - NATIVE_INDEX_FUNC_MIN]? = none := by
    rw [← List.get?_eq_getElem?]
    exact hf
  have hnl : ¬ index < NATIVE_INDEX_FUNC_MIN := by omega
  refine ⟨?_, ?_, ?_⟩ <;>
    simp [NativeModuleInstance.function_type, NativeModuleInstance.call_internal_function,
      NativeModuleInstance.build, hnl, hf2]

/-- Witness for C3 at index 10002 over the one-entry scenario registry. -/
theorem native_index_out_of_range_errors_witness :
    (NATIVE_INDEX_FUNC_MIN ≤ 10002 ∧ testUserFunctions.functions.length ≤ 10002 - NATIVE_INDEX_FUNC_MIN) ∧
    ((NativeModuleInstance.build Nat testEnv testUserFunctions).function_type (ItemIndex.Internal 10002) none =
        PanicOr.ok (Except.error (Error.Native ("missing native env function with index " ++ toString 10002))) ∧
      (NativeModuleInstance.build Nat testEnv testUserFunctions).function_type (ItemIndex.IndexSpace 10002) none =
        PanicOr.ok (Except.error (Error.Native ("missing native env function with index " ++ toString 10002))) ∧
      (NativeModuleInstance.build Nat testEnv testUserFunctions).call_internal_function 0 testCtx 10002 none =
        (0, Except.error (Error.Native ("trying to call native function with index " ++ toString 10002)))) :=
  ⟨⟨by decide, by decide⟩,
    native_index_out_of_range_errors Nat testEnv testUserFunctions 0 testCtx 10002 none none
      (by decide) (by decide)⟩

/-- Claim C4: for indices below the threshold, `function_type` (on index-space
and internal indices) and `call_internal_function` return exactly the wrapped
module's result for the same arguments — pure forwarding, errors passed
through unchanged, executor state untouched. -/
theorem below_threshold_forwards (σ : Type) (env : ModuleInstanceInterface)
    (ufns : UserFunctions σ) (s : σ) (outer : CallerContext) (index : Nat)
    (externals : Option Externals) (expected_type : Option FunctionType)
    (h : index < NATIVE_INDEX_FUNC_MIN) :
    (NativeModuleInstance.build σ env ufns).function_type (ItemIndex.IndexSpace index) externals =
        PanicOr.ok (env.function_type (ItemIndex.IndexSpace index) externals) ∧
      (NativeModuleInstance.build σ env ufns).function_type (ItemIndex.Internal index) externals =
        PanicOr.ok (env.function_type (ItemIndex.Internal index) externals) ∧
      (NativeModuleInstance.build σ env ufns).call_internal_function s outer index expected_type =
        (s, env.call_internal_function outer index expected_type) := by
  refine ⟨?_, ?_, ?_⟩ <;>
    simp [NativeModuleInstance.function_type, NativeModuleInstance.call_internal_function,
      NativeModuleInstance.build, h]

/-- Witness for C4 at module-internal index 3. -/
theorem below_threshold_forwards_witness :
    3 < NATIVE_INDEX_FUNC_MIN ∧
    ((NativeModuleInstance.build Nat testEnv testUserFunctions).function_type (ItemIndex.IndexSpace 3) none =
        PanicOr.ok (testEnv.function_type (ItemIndex.IndexSpace 3) none) ∧
      (NativeModuleInstance.build Nat testEnv testUserFunctions).function_type (ItemIndex.Internal 3) none =
        PanicOr.ok (testEnv.function_type (ItemIndex.Internal 3) none) ∧
      (NativeModuleInstance.build Nat testEnv testUserFunctions).call_internal_function 0 testCtx 3 none =
        (0, testEnv.call_internal_function testCtx 3 none)) :=
  ⟨by decide,
    below_threshold_forwards Nat testEnv testUserFunctions 0 testCtx 3 none none (by decide)⟩

/-- Claim C5: for a native-range index, `call_internal_function` is
independent of the expected-type argument: two calls differing only in that
parameter (either may be absent) perform the same dispatch and return the same
state and result — the parameter is accepted but never cross-checked. -/
theorem call_internal_function_ignores_expected_type (σ : Type) (env : ModuleInstanceInterface)
    (ufns : UserFunctions σ) (s : σ) (outer : CallerContext) (index : Nat)
    (t1 t2 : Option FunctionType)
    (h : NATIVE_INDEX_FUNC_MIN ≤ index) :
    (NativeModuleInstance.build σ env ufns).call_internal_function s outer index t1 =
      (NativeModuleInstance.build σ env ufns).call_internal_function s outer index t2 := by
  have hnl : ¬ index < NATIVE_INDEX_FUNC_MIN := by omega
  simp only [NativeModuleInstance.call_internal_function, if_neg hnl]

/-- Witness for C5 at index 10001, with a supplied expected type on one side
and none on the other. -/
theorem call_internal_function_ignores_expected_type_witness :
    NATIVE_INDEX_FUNC_MIN ≤ 10001 ∧
    (NativeModuleInstance.build Nat testEnv testUserFunctions).call_internal_function 0 testCtx 10001
        (some (FunctionType.new [] none)) =
      (NativeModuleInstance.build Nat testEnv testUserFunctions).call_internal_function 0 testCtx 10001 none :=
  ⟨by decide,
    call_internal_function_ignores_expected_type Nat testEnv testUserFunctions 0 testCtx 10001
      (some (FunctionType.new [] none)) none (by decide)⟩

/-- Claim C6: when the by-name lookup finds `n` at position `p`, `export_entry`
returns the function reference `NATIVE_INDEX_FUNC_MIN + p` for every value of
`required_type`: the argument never changes the result nor causes failure on a
registry hit. -/
theorem export_entry_ignores_required_type (σ : Type) (env : ModuleInstanceInterface)
    (ufns : UserFunctions σ) (n : String) (p : Nat) (externals : Option Externals)
    (hp : hashmapGet (NativeModuleInstance.build σ env ufns).by_name n = some p) :
    ∀ required_type, (NativeModuleInstance.build σ env ufns).export_entry n externals required_type =
      Except.ok (Internal.Function (NATIVE_INDEX_FUNC_MIN + p)) := by
  intro required_type
  simp [NativeModuleInstance.export_entry, hp]

/-- Witness for C6 on the scenario registry `[add]`. -/
theorem export_entry_ignores_required_type_witness :
    hashmapGet (NativeModuleInstance.build Nat testEnv testUserFunctions).by_name "add" = some 0 ∧
    ∀ required_type, (NativeModuleInstance.build Nat testEnv testUserFunctions).export_entry "add" none required_type =
      Except.ok (Internal.Function (NATIVE_INDEX_FUNC_MIN + 0)) :=
  ⟨by decide,
    export_entry_ignores_required_type Nat testEnv testUserFunctions "add" 0 none (by decide)⟩

/-- Claim C7: `table`, `memory`, `global`, `call_function` and
`call_function_indirect` are forwarded unchanged to the wrapped module with
the same arguments, for every input (native-range indices included); the
equations hold for every registry and executor and never touch the executor
state, so none of these operations consults the registry or invokes the
executor. -/
theorem table_memory_global_calls_forwarded (σ : Type) (env : ModuleInstanceInterface)
    (ufns : UserFunctions σ) (index tindex : ItemIndex) (variable_type : Option VariableType)
    (outer : CallerContext) (expected_type : Option FunctionType) (type_index func_index : Nat) :
    (NativeModuleInstance.build σ env ufns).table index = env.table index ∧
      (NativeModuleInstance.build σ env ufns).memory index = env.memory index ∧
      (NativeModuleInstance.build σ env ufns).global index variable_type = env.global index variable_type ∧
      (NativeModuleInstance.build σ env ufns).call_function outer index expected_type =
        env.call_function outer index expected_type ∧
      (NativeModuleInstance.build σ env ufns).call_function_indirect outer tindex type_index func_index =
        env.call_function_indirect outer tindex type_index func_index :=
  ⟨rfl, rfl, rfl, rfl, rfl⟩

/-- Claim C8: `function_type` on an externally-indexed function aborts with
the `unreachable` message (a programming-contract violation, not a returned
recoverable error); on an index-space or internal index the abort branch is
never taken and the operation returns normally. -/
theorem function_type_external_panics (σ : Type) (env : ModuleInstanceInterface)
    (ufns : UserFunctions σ) (externals : Option Externals) (e : Nat) :
    (NativeModuleInstance.build σ env ufns).function_type (ItemIndex.External e) externals =
        PanicOr.panics "trying to call function, exported by native env module" ∧
      (∀ i, ∃ r, (NativeModuleInstance.build σ env ufns).function_type (ItemIndex.IndexSpace i) externals =
        PanicOr.ok r) ∧
      (∀ i, ∃ r, (NativeModuleInstance.build σ env ufns).function_type (ItemIndex.Internal i) externals =
        PanicOr.ok r) :=
  ⟨rfl, fun _ => ⟨_, rfl⟩, fun _ => ⟨_, rfl⟩⟩

/-- Claim C9: constructing the native module from a registry holding two
descriptors with the same name succeeds (construction always returns `ok`),
and the by-name lookup maps that name to the position of the last descriptor
carrying it, shadowing the earlier one. -/
theorem duplicate_names_last_wins (σ : Type) (env : ModuleInstanceInterface)
    (ufns : UserFunctions σ) (n : String) (i j : Nat) (fi fj : UserFunction)
    (hij : i < j)
    (hi : ufns.functions.get? i = some fi) (hni : fi.name = n)
    (hj : ufns.functions.get? j = some fj) (hnj : fj.name = n)
    (hlast : ∀ k g, j < k → ufns.functions.get? k = some g → g.name ≠ n) :
    NativeModuleInstance.new σ env ufns = Except.ok (NativeModuleInstance.build σ env ufns) ∧
      hashmapGet (NativeModuleInstance.build σ env ufns).by_name n = some j :=
  ⟨rfl, hashmapGet_collectByName ufns.functions j fj n hj hnj hlast⟩

/-- Witness for C9 on a registry with two descriptors named `f`: lookup finds
position 1, the later one. -/
theorem duplicate_names_last_wins_witness :
    (0 < 1 ∧ dupUserFunctions.functions.get? 0 = some dupFirst ∧ dupFirst.name = "f" ∧
      dupUserFunctions.functions.get? 1 = some dupSecond ∧ dupSecond.name = "f" ∧
      (∀ k g, 1 < k → dupUserFunctions.functions.get? k = some g → g.name ≠ "f")) ∧
    (NativeModuleInstance.new Nat testEnv dupUserFunctions =
        Except.ok (NativeModuleInstance.build Nat testEnv dupUserFunctions) ∧
      hashmapGet (NativeModuleInstance.build Nat testEnv dupUserFunctions).by_name "f" = some 1) := by
  have hlast : ∀ k g, 1 < k → dupUserFunctions.functions.get? k = some g → g.name ≠ "f" := by
    intro k g hk hg
    match k, hk with
    | k + 2, _ => simp [dupUserFunctions] at hg
  exact ⟨⟨Nat.zero_lt_one, rfl, rfl, rfl, rfl, hlast⟩,
    duplicate_names_last_wins Nat testEnv dupUserFunctions "f" 0 1 dupFirst dupSecond
      Nat.zero_lt_one rfl rfl rfl rfl hlast⟩

/-- Claim C10: `execute_index` and `execute_export` are forwarded unchanged to
the wrapped module for every index and every name; the equations hold for
every registry and executor and never touch the executor state, so neither
operation consults the registry or invokes the executor — in particular a
registered native name is still forwarded by `execute_export`, even though
`export_entry` resolves that same name to a native function reference. -/
theorem execute_forwarded (σ : Type) (env : ModuleInstanceInterface)
    (ufns : UserFunctions σ) (index : Nat) (name : String) (params : ExecutionParams) :
    (NativeModuleInstance.build σ env ufns).execute_index index params = env.execute_index index params ∧
      (NativeModuleInstance.build σ env ufns).execute_export name params = env.execute_export name params :=
  ⟨rfl, rfl⟩
